import Mathlib

/- Shallow embedding of src/IMP_PROJECT/src/main.c (ESP32 temperature tool).

   Modelling conventions:
   * C `double` values are modelled as exact rationals where the code only
     compares, adds and parses constants (threshold logic, `atof`), and as
     reals where the code takes a square root (the ADC calibration curve in
     `get_temperature`).  Every concrete comparison appearing in the claims is
     far (>= 0.05) from the threshold being compared against, while IEEE
     double rounding error on these literals is below 1e-13, so the exact
     model decides each comparison the same way the compiled code does.
   * The NVS key-value store holds a u16 value under the key "count" and
     string records under the keys "t0", "t1", ...  The map
     n |-> "t" ++ decimal n is injective, so record keys are modelled
     directly as naturals.  (The C key buffer is undersized for counts >= 10;
     snprintf still produces the intended decimal key text at the buffer
     address, and the spec treats the derived-key scheme as the semantics,
     so the model uses the intended key.)
   * Fallible NVS primitives are modelled by explicit failure flags threaded
     through `store_temperature` (true = the write reports an error such as
     ESP_ERR_NVS_NOT_ENOUGH_SPACE); `nvs_get_u16` fails exactly when the
     "count" key is absent, which is how every claim scenario exercises it.
   * `count` is a C uint16_t, so `++count` is modelled as `(c + 1) % 65536`.
-/

set_option maxRecDepth 8000

namespace IMP

/- ## Threshold controller (main.c lines 42-48, 102-114, 413-436)

   Globals: `threshold` (double, default -50.0), `threshold_overcome`
   (bool, the "armed" latch), and the LED level driven by gpio_set_level. -/

def THRESHOLD_DEFAULT_VALUE : ℚ := -50

structure SysState where
  threshold : ℚ
  armed : Bool
  led : Bool
deriving DecidableEq

/- `handle_threshold` (lines 102-114): when a threshold is set, the alarm
   goes high when `temperature >= threshold`, stays high while armed and
   `temperature >= threshold - 1.0`, and otherwise goes low. -/
def handle_threshold (temperature : ℚ) (s : SysState) : SysState :=
  if s.threshold = THRESHOLD_DEFAULT_VALUE then s
  else if temperature ≥ s.threshold ∨ (s.armed = true ∧ temperature ≥ s.threshold - 1) then
    { s with armed := true, led := true }
  else
    { s with armed := false, led := false }

/- The armed flag observed after each reading of a sampled sequence. -/
def armedTrace (temps : List ℚ) (s : SysState) : List Bool :=
  match temps with
  | [] => []
  | x :: xs =>
    let s2 := handle_threshold x s
    s2.armed :: armedTrace xs s2

/- ## Request-body parsing and atof (lines 413-436)

   `post_set_threshold_handler` scans the body; characters after the first
   '=' are written into `thresh[count-1]` while `count` keeps incrementing,
   and the result is fed to `atof`. -/

def nulChar : Char := Char.ofNat 0

def emptyStr : String := ""

def extractLoop (buffer : List Char) (count : Nat) (thresh : List Char) : List Char :=
  match buffer with
  | [] => thresh
  | c :: rest =>
    if c = '=' then extractLoop rest (count + 1) thresh
    else if count ≠ 0 then extractLoop rest (count + 1) (thresh.set (count - 1) c)
    else extractLoop rest count thresh

/- `thresh` is a 10-byte zero-initialised C buffer; `atof` reads it up to the
   first NUL.  (`List.set` ignores out-of-range writes; in C those writes are
   undefined behaviour, outside every claim's inputs.) -/
def extract (body : List Char) : List Char :=
  (extractLoop body 0 (List.replicate 10 nulChar)).takeWhile (fun c => c != nulChar)

/- C `atof`/`strtod` on the decimal forms: optional whitespace, optional
   sign, digits with an optional fraction and exponent; no conversion (no
   digits) yields 0.0.  Hexadecimal/inf/nan forms are not modelled; no claim
   involves them. -/

def isSpaceC (c : Char) : Bool :=
  c == ' ' || c == '\t' || c == '\n' || c == '\r' || c == Char.ofNat 11 || c == Char.ofNat 12

def skipSpaces : List Char → List Char
  | [] => []
  | c :: rest => if isSpaceC c then skipSpaces rest else c :: rest

def splitSign (s : List Char) : Bool × List Char :=
  match s with
  | [] => (false, [])
  | c :: rest =>
    if c = '-' then (true, rest)
    else if c = '+' then (false, rest)
    else (false, c :: rest)

def takeDigits : List Char → List Char × List Char
  | [] => ([], [])
  | c :: rest =>
    if c.isDigit then
      let p := takeDigits rest
      (c :: p.1, p.2)
    else ([], c :: rest)

def digitsVal (ds : List Char) : Nat :=
  ds.foldl (fun a c => 10 * a + (c.toNat - 48)) 0

def fracPart (s : List Char) : List Char × List Char :=
  match s with
  | [] => ([], [])
  | c :: rest => if c = '.' then takeDigits rest else ([], c :: rest)

def expVal (s : List Char) : Int :=
  match s with
  | [] => 0
  | c :: rest =>
    if c = 'e' ∨ c = 'E' then
      if (takeDigits (splitSign rest).2).1.length = 0 then 0
      else if (splitSign rest).1 then -(digitsVal (takeDigits (splitSign rest).2).1 : Int)
      else (digitsVal (takeDigits (splitSign rest).2).1 : Int)
    else 0

def afterSign (s : List Char) : List Char := (splitSign (skipSpaces s)).2

def atofMant (ip fp : List Char) : ℚ :=
  (digitsVal ip : ℚ) + (digitsVal fp : ℚ) / 10 ^ fp.length

def atofCore (neg : Bool) (s2 : List Char) : ℚ :=
  if (takeDigits s2).1.length + (fracPart (takeDigits s2).2).1.length = 0 then 0
  else
    (if neg then -1 else 1) *
      atofMant (takeDigits s2).1 (fracPart (takeDigits s2).2).1 *
      (10 : ℚ) ^ expVal (fracPart (takeDigits s2).2).2

def atof (s : List Char) : ℚ :=
  atofCore (splitSign (skipSpaces s)).1 (afterSign s)

/- A string has a leading number exactly when, after whitespace and an
   optional sign, a digit or a '.' followed by a digit begins. -/

def headDigit : List Char → Bool
  | [] => false
  | c :: _ => c.isDigit

def leadingNum (s2 : List Char) : Bool :=
  match s2 with
  | [] => false
  | c :: rest => c.isDigit || (c == '.' && headDigit rest)

def hasLeadingNumber (s : List Char) : Bool := leadingNum (afterSign s)

/- `post_set_threshold_handler` (lines 413-436): forces the LED low, then
   assigns `threshold = atof(thresh)`.  It does not touch
   `threshold_overcome`. -/
def post_set_threshold_handler (s : SysState) (body : List Char) : SysState :=
  { s with led := false, threshold := atof (extract body) }

/- ## NVS history store (lines 219-232, 238-292, 298-329) -/

structure Store where
  cnt : Option Nat
  recs : List (Nat × String)
deriving DecidableEq

def Store.empty : Store := ⟨none, []⟩

def setRec (l : List (Nat × String)) (k : Nat) (v : String) : List (Nat × String) :=
  (k, v) :: l.filter (fun p => p.1 != k)

def getRec (st : Store) (k : Nat) : Option String :=
  st.recs.lookup k

/- `store_temperature` (lines 238-292): read the counter (on failure, e.g.
   the key is absent after an erase, clear the whole store and use 0;
   otherwise increment); write the record under key t<count>; on failure
   clear the store and set count to 0 (the record is NOT rewritten); write
   the counter; on failure clear the store.  `failSetStr` / `failSetU16`
   inject the respective nvs_set errors. -/
def store_temperature (st : Store) (rec : String) (failSetStr failSetU16 : Bool) : Store :=
  match st with
  | ⟨none, _⟩ =>
    -- nvs_get_u16 fails (key absent): clear_memory(), count = 0; then the
    -- record write under key t0 and the counter write of 0.
    if failSetStr then
      if failSetU16 then Store.empty else ⟨some 0, []⟩
    else
      if failSetU16 then Store.empty else ⟨some 0, setRec [] 0 rec⟩
  | ⟨some c, recs⟩ =>
    -- nvs_get_u16 succeeds: ++count on the uint16_t counter; on a failed
    -- record write, clear_memory() and count = 0 (the record is lost); on a
    -- failed counter write, clear_memory() leaves the store fully empty.
    if failSetStr then
      if failSetU16 then Store.empty else ⟨some 0, []⟩
    else
      if failSetU16 then Store.empty
      else ⟨some ((c + 1) % 65536), setRec recs ((c + 1) % 65536) rec⟩

/- n successful appends of readings R 1, ..., R n, starting from an empty
   store (the sampling loop's steady state with no write failures). -/
def appendN (R : Nat → String) : Nat → Store
  | 0 => Store.empty
  | n + 1 => store_temperature (appendN R n) (R (n + 1)) false false

/- `get_last_10_temperatures_from_nvm` (lines 298-329) plus the handler
   (lines 379-405).  `arr` is the global `temperature_arr`, which persists
   across calls; a slot is only overwritten when its nvs_get_str succeeds.
   The C loop bound `(count - 10 >= 0 ? count - 10 : -1)` compares the
   size_t index against (size_t)(-1) when count < 10, so the loop body never
   runs in that case and `temperature_arr` is returned unchanged.  The
   handler always serialises all 10 slots. -/
def get_last_10_temperatures_from_nvm (st : Store) (arr : List String) : List String :=
  let count : Nat := st.cnt.getD 0
  if count < 10 then arr
  else
    (List.range 10).map (fun index =>
      match getRec st (count - index) with
      | some v => v
      | none => arr.getD index emptyStr)

/- ## Clock (lines 176-212)

   `init_time` captures `t` once from SNTP (plus a +1 hour zone shift);
   `get_time` returns `t + esp_rtc_get_time_us()/1000000`, where the RTC
   microsecond counter runs from boot.  Nothing records the RTC value at
   the moment the sync completed. -/

def init_time (ntp_seconds : Int) : Int := ntp_seconds + 3600

def get_time (t : Int) (rtc_us : Int) : Int := t + rtc_us / 1000000

/- The formula the spec claims: reference wall time plus ticks elapsed since
   a monotonic reference captured at the sync point. -/
def claimTimestamp (refWall refTicks nowTicks : Int) : Int := refWall + (nowTicks - refTicks)

/- ## Converter (lines 91-97)

   temperature = (8.194 - sqrt((-8.194)^2 + 4*0.00262*(1324 - mV)))
                   / (2 * -0.00262) + 40 -/

noncomputable def radicand (mV : ℝ) : ℝ := (-8.194) ^ 2 + 4 * 0.00262 * (1324 - mV)

noncomputable def get_temperature (mV : ℝ) : ℝ :=
  (8.194 - Real.sqrt (radicand mV)) / (2 * (-0.00262)) + 40

/- Concrete readings used in counterexamples: R n is the decimal of n. -/
def Rdef : Nat → String := fun n => toString n

def sA : String := "A"

def sB : String := "B"

def bodyEx : List Char := ['t', 'h', 'r', 'e', 's', 'h', 'o', 'l', 'd', '=', 'a', 'b', 'c']

def c5_store_after_erase : Store := store_temperature (appendN Rdef 11) (Rdef 12) true false

def c5_store : Store := store_temperature c5_store_after_erase (Rdef 13) false false

def c5_arr : List String := get_last_10_temperatures_from_nvm (appendN Rdef 11) (List.replicate 10 emptyStr)

/- ## Helper lemmas -/

/- A body without '=' never enters the copying branch, so the scratch buffer
   is returned untouched. -/
theorem extractLoop_no_eq (buffer : List Char) (acc : List Char) (h : '=' ∉ buffer) :
    extractLoop buffer 0 acc = acc := by
  induction buffer with
  | nil => rfl
  | cons c rest ih =>
    rw [List.mem_cons, not_or] at h
    have hc : ¬(c = '=') := fun hcc => h.1 hcc.symm
    simpa [extractLoop, hc] using ih h.2

theorem takeWhile_replicate_nul :
    (List.replicate 10 nulChar).takeWhile (fun c => c != nulChar) = [] := by decide

/- When no digit leads (after sign and whitespace handling), atof performs no
   conversion and returns 0, as strtod specifies. -/
theorem atofCore_zero (neg : Bool) (s2 : List Char) (h : leadingNum s2 = false) :
    atofCore neg s2 = 0 := by
  cases s2 with
  | nil => rfl
  | cons c rest =>
    simp only [leadingNum, Bool.or_eq_false_iff, Bool.and_eq_false_iff] at h
    obtain ⟨hd, hdot⟩ := h
    have ht : takeDigits (c :: rest) = ([], c :: rest) := by
      simp [takeDigits, hd]
    by_cases hc : c = '.'
    · subst hc
      have hh : headDigit rest = false := by
        rcases hdot with hdot | hdot
        · simp at hdot
        · exact hdot
      cases rest with
      | nil => simp [atofCore, ht, fracPart, takeDigits]
      | cons d r2 =>
        have hd2 : d.isDigit = false := by simpa [headDigit] using hh
        simp [atofCore, ht, fracPart, takeDigits, hd2]
    · simp [atofCore, ht, fracPart, hc]

theorem atof_zero_of_not_leading (s : List Char) (h : hasLeadingNumber s = false) :
    atof s = 0 :=
  atofCore_zero _ _ h

/- Looking up a key distinct from the freshly written one is unaffected by
   the write. -/
theorem lookup_filter_ne (l : List (Nat × String)) (key k : Nat) (hk : k ≠ key) :
    (l.filter (fun p => p.1 != key)).lookup k = l.lookup k := by
  induction l with
  | nil => rfl
  | cons p rest ih =>
    obtain ⟨a, b⟩ := p
    by_cases hp : a = key
    · subst hp
      have hka : (k == a) = false := by simp [hk]
      simp [List.filter_cons, List.lookup, hka, ih]
    · have h1 : ((a, b).1 != key) = true := by simp [hp]
      cases hka : (k == a) with
      | true => simp [List.filter_cons, h1, List.lookup, hka]
      | false => simp [List.filter_cons, h1, List.lookup, hka, ih]

theorem lookup_setRec_ne (l : List (Nat × String)) (key k : Nat) (v : String)
    (hk : k ≠ key) : (setRec l key v).lookup k = l.lookup k := by
  have hka : (k == key) = false := by simp [hk]
  simp [setRec, List.lookup, hka, lookup_filter_ne l key k hk]

/- A successful append on a store whose counter reads c yields counter
   (c+1) mod 2^16. -/
theorem store_cnt_ok (st : Store) (rec : String) (c : Nat) (h : st.cnt = some c) :
    (store_temperature st rec false false).cnt = some ((c + 1) % 65536) := by
  obtain ⟨cnt, recs⟩ := st
  simp only at h
  subst h
  rfl

/- ## Claims -/

/-- C1: the claim states that with threshold 25.0 and band 1.0 the readings
[24.9, 25.1, 24.95, 23.9, 24.95] from the Normal state produce the armed
sequence [false, true, true, true, false].  The code clears the latch already
at 23.9 (23.9 < 25.0 - 1.0), so the fourth element is false, refuting the
claimed sequence. -/
theorem C1_claim_false :
    armedTrace [24.9, 25.1, 24.95, 23.9, 24.95] ⟨25, false, false⟩ ≠
      [false, true, true, true, false] := by
  norm_num [armedTrace, handle_threshold, THRESHOLD_DEFAULT_VALUE]

/-- C1 amended: with threshold 25.0 and band 1.0 the readings
[24.9, 25.1, 24.95, 23.9, 24.95] from the Normal state produce the armed
sequence [false, true, true, false, false]: the alarm latches at 25.1, stays
latched through 24.95 (>= 24.0), clears at 23.9, and stays clear at the final
24.95. -/
theorem C1_hysteresis_trace :
    armedTrace [24.9, 25.1, 24.95, 23.9, 24.95] ⟨25, false, false⟩ =
      [false, true, true, false, false] := by
  norm_num [armedTrace, handle_threshold, THRESHOLD_DEFAULT_VALUE]

/-- C2: the claim states that the set-threshold operation always leaves the
controller with armed = false.  Starting Alarmed (armed = true), the handler
leaves the armed latch true: it only drives the LED low and assigns the new
threshold, refuting the claim. -/
theorem C2_claim_false :
    ((post_set_threshold_handler ⟨25, true, true⟩ ['t', '=', '9']).armed = true) ∧
    ¬((post_set_threshold_handler ⟨25, true, true⟩ ['t', '=', '9']).armed = false) := by
  decide

/-- C2 amended: for every controller state and request body, the set-threshold
handler forces the alarm output low and replaces the threshold with the parsed
body value, but leaves the armed latch exactly as it was (it is only
re-evaluated by the next sampling cycle). -/
theorem C2_set_threshold_effect (s : SysState) (body : List Char) :
    (post_set_threshold_handler s body).led = false ∧
    (post_set_threshold_handler s body).armed = s.armed ∧
    (post_set_threshold_handler s body).threshold = atof (extract body) :=
  ⟨rfl, rfl, rfl⟩

/-- C3: the claim states that after N successful appends from an empty store
the stored counter is N.  After 1 successful append the stored counter is 0
(the first counter read fails, the code clears the store and stores count = 0),
refuting the claim. -/
theorem C3_claim_false :
    (appendN Rdef 1).cnt = some 0 ∧ (some 0 : Option Nat) ≠ some 1 := by decide

/-- C3 amended: after n >= 1 successful appends starting from an empty store,
the counter stored in the backing store is (n - 1) mod 2^16: the first append
after an empty or erased store writes counter 0 together with its reading. -/
theorem C3_counter_value (R : Nat → String) (n : Nat) (h : 1 ≤ n) :
    (appendN R n).cnt = some ((n - 1) % 65536) := by
  induction n with
  | zero => exact absurd h (by decide)
  | succ m ih =>
    rcases Nat.eq_zero_or_pos m with hm | hm
    · subst hm; rfl
    · have hc := ih hm
      have hs := store_cnt_ok (appendN R m) (R (m + 1)) ((m - 1) % 65536) hc
      show (store_temperature (appendN R m) (R (m + 1)) false false).cnt = _
      rw [hs]
      congr 1
      omega

/-- C3 witness: after 2 successful appends the stored counter is 1. -/
theorem C3_counter_value_witness :
    1 ≤ 2 ∧ (appendN Rdef 2).cnt = some ((2 - 1) % 65536) :=
  ⟨by decide, C3_counter_value Rdef 2 (by decide)⟩

set_option maxHeartbeats 1600000 in
/-- C4: appending readings R1..R15 to an empty store (all appends succeeding)
and then running the last-10 query returns exactly R15, R14, ..., R6, newest
first: the fifteen records sit under keys t0..t14 with stored counter 14, and
the read loop fetches keys t14 down to t5 into slots 0..9. -/
theorem C4_last10_round_trip (R : Nat → String) :
    get_last_10_temperatures_from_nvm (appendN R 15) (List.replicate 10 emptyStr) =
      [R 15, R 14, R 13, R 12, R 11, R 10, R 9, R 8, R 7, R 6] := rfl

/-- C5: evaluation of the code at the failing input.  After 11 appends a
last-10 query fills the scratch buffer with the records of R2..R11; the store
is then erased by a full-store recovery and receives one post-recovery
reading (R13, stored counter 1).  The store now holds exactly one record, yet
the query returns the 10 stale pre-erase entries unchanged, because with
counter < 10 the read loop never executes: the handler serves 10 entries none
of which is stored under any current key, where the claim (and the spec's
stated intent in section 9) requires at most 1 entry, each actually stored. -/
theorem C5_stale_buffer_returned :
    c5_store.recs = [(1, "13")] ∧
    c5_arr = ["11", "10", "9", "8", "7", "6", "5", "4", "3", "2"] ∧
    get_last_10_temperatures_from_nvm c5_store c5_arr = c5_arr := by decide

/-- C6: the claim states that every append either applies both writes or
leaves the store exactly in its prior state, never losing other keys.  On a
store holding counter 0 and one record, an append whose record write fails
erases everything and then writes only the counter: the resulting store
⟨some 0, []⟩ has lost the prior record (key 0), does not contain the new
reading (key 1), and is not the prior state — one of the two writes applied,
prior keys lost — refuting the claim. -/
theorem C6_claim_false :
    store_temperature ⟨some 0, [(0, sA)]⟩ sB true false = ⟨some 0, []⟩ ∧
    store_temperature ⟨some 0, [(0, sA)]⟩ sB true false ≠ ⟨some 0, [(0, sA)]⟩ ∧
    getRec (store_temperature ⟨some 0, [(0, sA)]⟩ sB true false) 0 = none ∧
    getRec (store_temperature ⟨some 0, [(0, sA)]⟩ sB true false) 1 = none := by decide

/-- C6 amended: on a store whose counter reads c, an append with both
primitive writes succeeding applies both writes (the reading under key
(c+1) mod 2^16 and that counter value) and preserves every other key; an
append whose record write fails erases the store and writes only counter 0;
an append whose counter write fails leaves the store completely empty.  A
failed append therefore does not preserve the prior state. -/
theorem C6_append_effects (st : Store) (rec : String) (c k : Nat)
    (h : st.cnt = some c) (hk : k ≠ (c + 1) % 65536) :
    (store_temperature st rec false false =
        ⟨some ((c + 1) % 65536), setRec st.recs ((c + 1) % 65536) rec⟩) ∧
    getRec (store_temperature st rec false false) ((c + 1) % 65536) = some rec ∧
    getRec (store_temperature st rec false false) k = getRec st k ∧
    store_temperature st rec true false = ⟨some 0, []⟩ ∧
    store_temperature st rec false true = Store.empty := by
  obtain ⟨cnt, recs⟩ := st
  simp only at h
  subst h
  refine ⟨rfl, ?_, ?_, rfl, rfl⟩
  · simp [store_temperature, getRec, setRec, List.lookup]
  · show getRec ⟨some ((c + 1) % 65536), setRec recs ((c + 1) % 65536) rec⟩ k = _
    simp only [getRec]
    exact lookup_setRec_ne recs ((c + 1) % 65536) k rec hk

/-- C6 witness: the effects theorem instantiated on the one-record store with
counter 0, new reading under key 1, and unaffected key 2. -/
theorem C6_append_effects_witness :
    (Store.mk (some 0) [(0, sA)]).cnt = some 0 ∧ (2 : Nat) ≠ (0 + 1) % 65536 ∧
    ((store_temperature ⟨some 0, [(0, sA)]⟩ sB false false =
        ⟨some ((0 + 1) % 65536), setRec [(0, sA)] ((0 + 1) % 65536) sB⟩) ∧
      getRec (store_temperature ⟨some 0, [(0, sA)]⟩ sB false false) ((0 + 1) % 65536) =
        some sB ∧
      getRec (store_temperature ⟨some 0, [(0, sA)]⟩ sB false false) 2 =
        getRec ⟨some 0, [(0, sA)]⟩ 2 ∧
      store_temperature ⟨some 0, [(0, sA)]⟩ sB true false = ⟨some 0, []⟩ ∧
      store_temperature ⟨some 0, [(0, sA)]⟩ sB false true = Store.empty) :=
  ⟨rfl, by decide, C6_append_effects ⟨some 0, [(0, sA)]⟩ sB 0 2 rfl (by decide)⟩

/-- C7: the claim states that on a Full report the append erases the store,
restarts the counter, and retries the same reading once, so the store then
contains that reading.  Simulating Full on the 16th append: the store is
erased and the counter written as 0, but the record list is empty — the
reading R16 was not retried and is nowhere in the store — refuting the claim. -/
theorem C7_claim_false :
    (store_temperature (appendN Rdef 15) (Rdef 16) true false).cnt = some 0 ∧
    (store_temperature (appendN Rdef 15) (Rdef 16) true false).recs = [] ∧
    (appendN Rdef 15).recs ≠ [] := by decide

/-- C7 amended: when the backing store reports Full on the record write, the
append erases the entire store and writes counter 0, but does not retry the
reading: the store immediately after recovery contains no readings at all,
and the last-10 query on it performs no lookups (counter 0 < 10), returning
the scratch buffer unchanged. -/
theorem C7_full_recovery_no_retry (st : Store) (rec : String) (arr : List String) :
    store_temperature st rec true false = ⟨some 0, []⟩ ∧
    get_last_10_temperatures_from_nvm ⟨some 0, []⟩ arr = arr := by
  obtain ⟨cnt, recs⟩ := st
  cases cnt <;> exact ⟨rfl, rfl⟩

/-- C8: the claim states that every timestamp equals reference_wall_time +
(now_monotonic_ticks - reference_monotonic_ticks) with both references
captured together at the sync point.  In an execution whose sync completes at
monotonic second 5 with wall time 1000, the code's get_time at monotonic
second 10 yields 1000 + 10 = 1010, while the claimed formula yields
1000 + (10 - 5) = 1005, refuting the claim: the code never records the
monotonic tick value at the sync point. -/
theorem C8_claim_false :
    get_time 1000 10000000 = 1010 ∧ claimTimestamp 1000 5 10 = 1005 ∧
    get_time 1000 10000000 ≠ claimTimestamp 1000 5 10 := by decide

/-- C8 amended: every timestamp equals reference_wall_time plus the full
monotonic seconds elapsed since boot — the claimed formula with the monotonic
reference fixed at 0 (boot), not captured at the sync point — so timestamps
run ahead of true wall time by the boot-to-sync delay. -/
theorem C8_time_from_boot (t rtc_us : Int) :
    get_time t rtc_us = claimTimestamp t 0 (rtc_us / 1000000) := by
  simp [get_time, claimTimestamp]

/-- C9: the claim states the conversion is monotonically non-decreasing in
the raw sample.  The calibration curve evaluated at raw 0 exceeds its value
at raw 4095 (about 194 versus about -346 degrees): the conversion is strictly
decreasing across the ADC range, refuting the claimed direction. -/
theorem C9_claim_false : get_temperature 4095 < get_temperature 0 := by
  have h1 : Real.sqrt (radicand 4095) < Real.sqrt (radicand 0) := by
    apply Real.sqrt_lt_sqrt
    · unfold radicand; norm_num
    · unfold radicand; norm_num
  unfold get_temperature
  have e : ∀ x : ℝ, x / (2 * (-0.00262)) = x * (-(25000 / 131)) := by
    intro x
    rw [div_eq_mul_inv]
    norm_num
  simp only [e]
  nlinarith [h1]

/-- C9 amended: for raw samples m1 <= m2 in the 12-bit range [0, 4095], the
radicand of the calibration curve stays strictly positive (so the square root
is real and the result finite) and the conversion is monotonically
non-increasing: get_temperature m2 <= get_temperature m1. -/
theorem C9_monotone_decreasing (m1 m2 : ℝ) (_h0 : 0 ≤ m1) (h12 : m1 ≤ m2)
    (h2 : m2 ≤ 4095) :
    0 < radicand m1 ∧ 0 < radicand m2 ∧ get_temperature m2 ≤ get_temperature m1 := by
  have hr2 : 0 < radicand m2 := by unfold radicand; nlinarith
  have hr1 : 0 < radicand m1 := by unfold radicand; nlinarith
  refine ⟨hr1, hr2, ?_⟩
  have hrr : radicand m2 ≤ radicand m1 := by unfold radicand; nlinarith
  have hs : Real.sqrt (radicand m2) ≤ Real.sqrt (radicand m1) := Real.sqrt_le_sqrt hrr
  unfold get_temperature
  have e : ∀ x : ℝ, x / (2 * (-0.00262)) = x * (-(25000 / 131)) := by
    intro x
    rw [div_eq_mul_inv]
    norm_num
  simp only [e]
  nlinarith [hs]

/-- C9 witness: the monotonicity theorem instantiated at the range endpoints
0 and 4095. -/
theorem C9_monotone_decreasing_witness :
    (0 : ℝ) ≤ 0 ∧ (0 : ℝ) ≤ 4095 ∧ (4095 : ℝ) ≤ 4095 ∧
    (0 < radicand 0 ∧ 0 < radicand 4095 ∧ get_temperature 4095 ≤ get_temperature 0) :=
  ⟨le_refl 0, by norm_num, le_refl 4095,
    C9_monotone_decreasing 0 4095 (le_refl 0) (by norm_num) (le_refl 4095)⟩

/-- C10: for every set-threshold request whose body contains no '=' character
or whose extracted value has no leading number (so atof performs no
conversion), the handler sets the active threshold to 0 — the atof result —
regardless of the previous threshold, instead of rejecting the request. -/
theorem C10_bad_body_zero (s : SysState) (body : List Char)
    (h : '=' ∉ body ∨ hasLeadingNumber (extract body) = false) :
    (post_set_threshold_handler s body).threshold = 0 := by
  rcases h with h | h
  · have he : extract body = [] := by
      unfold extract
      rw [extractLoop_no_eq body _ h]
      exact takeWhile_replicate_nul
    show atof (extract body) = 0
    rw [he]
    rfl
  · exact atof_zero_of_not_leading _ h

/-- C10 witness: the body "threshold=abc" extracts "abc", which has no
leading number; the handler overwrites a previous threshold of 5 with 0. -/
theorem C10_bad_body_zero_witness :
    hasLeadingNumber (extract bodyEx) = false ∧
    (post_set_threshold_handler ⟨5, true, true⟩ bodyEx).threshold = 0 :=
  ⟨by decide, C10_bad_body_zero ⟨5, true, true⟩ bodyEx (Or.inr (by decide))⟩

end IMP
